import Mathlib

/-!
# cloudtask-agent, package `etc` (`etc/configuration.go`)

A shallow embedding of the configuration bootstrap module and proofs about it.

* Go structs become Lean structures with the source's field names.
* The two package globals `SystemConfig` and `ServerConfig` become the record
  `Globals`; a nil pointer is `none`.
* Calls into other packages (`system`, `os`, `filepath`, `yaml`, `strings`,
  `models`) and the method `parseEnv`, whose body lives in another file of the
  package, are parameters of the functions that call them.
* Go's `map` is an association list read with first-match lookup; the
  unspecified visiting order of `range` is an explicit argument.
* The embedded `sync.RWMutex` is not modelled: every function is run
  sequentially.
-/

namespace Etc

/-! ## Data model -/

/-- Go `[]byte`. -/
abbrev Bytes := List UInt8

/-- The anonymous struct of `Configuration.Cluster`. -/
structure ClusterConf where
  DataCenter : String
  Hosts : String
  Root : String
  Device : String
  Runtime : String
  OS : String
  Platform : String
  Pulse : String
  Threshold : Int
deriving DecidableEq, Repr

/-- The anonymous struct of `Configuration.API`. -/
structure APIConf where
  Hosts : List String
  EnableCors : Bool
deriving DecidableEq, Repr

/-- The anonymous struct of `Configuration.Cache`. -/
structure CacheConf where
  MaxJobs : Int
  SaveDirectory : String
  AutoClean : Bool
  CleanInterval : String
  PullRecovery : String
deriving DecidableEq, Repr

/-- The anonymous struct of `Configuration.Logger`. -/
structure LoggerConf where
  LogFile : String
  LogLevel : String
  LogSize : Int
deriving DecidableEq, Repr

/-- Go `type Configuration struct`. -/
structure Configuration where
  Version : String
  PidFile : String
  RetryStartup : Bool
  Cluster : ClusterConf
  API : APIConf
  Cache : CacheConf
  Logger : LoggerConf
deriving DecidableEq, Repr

/-- The zero value of `Configuration`. -/
def Configuration.zero : Configuration where
  Version := ""
  PidFile := ""
  RetryStartup := false
  Cluster := ⟨"", "", "", "", "", "", "", "", 0⟩
  API := ⟨[], false⟩
  Cache := ⟨0, "", false, "", ""⟩
  Logger := ⟨"", "", 0⟩

/-- Go `&Configuration{RetryStartup: true}`, the value `New` hands to the decoder. -/
def Configuration.seed : Configuration :=
  { Configuration.zero with RetryStartup := true }

/-- The error values the package can return: its four sentinel errors, an error
built by `fmt.Errorf`, and an error handed back unchanged from a collaborator. -/
inductive GoError where
  | ErrConfigFileNotFound
  | ErrConfigGenerateFailure
  | ErrConfigFormatInvalid
  | ErrConfigServerDataInvalid
  | Errorf (msg : String)
  | External (msg : String)
deriving DecidableEq, Repr

/-- The package-level variables `SystemConfig` and `ServerConfig`; `SC` is
`models.ServerConfig`. -/
structure Globals (SC : Type) where
  SystemConfig : Option Configuration
  ServerConfig : Option SC
deriving DecidableEq, Repr

/-- The fields of `gzkwrapper.WorkerArgs` that `ClusterArgs` fills. -/
structure WorkerArgs where
  Hosts : String
  Root : String
  Device : String
  DataCenter : String
  Location : String
  OS : String
  Platform : String
  APIAddr : String
  Pulse : String
  Threshold : Int
deriving DecidableEq, Repr

/-- The fields of `cache.CacheArgs` that `CacheArgs` fills. -/
structure CacheArgsT where
  MaxJobs : Int
  SaveDirectory : String
  AutoClean : Bool
  CleanInterval : String
  PullRecovery : String
deriving DecidableEq, Repr

/-- The fields of `logger.Args` that `LoggerArgs` fills. -/
structure LoggerArgsT where
  FileName : String
  Level : String
  MaxSize : Int
deriving DecidableEq, Repr

/-- A run-time panic of the Go program. -/
inductive Panic where
  | indexOutOfRange (index length : Nat)
deriving DecidableEq, Repr

/-! ## Defaulting -/

/-- Go `parseDefaultParmeters(conf)`; the result is `conf` after the call.
`CLUSTER_CROSS_DC` is the constant `models.CLUSTER_CROSS_DC`. -/
def parseDefaultParmeters (CLUSTER_CROSS_DC : String) (conf : Configuration) : Configuration :=
  let conf := if conf.Cluster.DataCenter = "" then
    { conf with Cluster := { conf.Cluster with DataCenter := CLUSTER_CROSS_DC } } else conf
  let conf := if conf.Cluster.Pulse = "" then
    { conf with Cluster := { conf.Cluster with Pulse := "8s" } } else conf
  let conf := if conf.Cluster.Threshold = 0 then
    { conf with Cluster := { conf.Cluster with Threshold := 1 } } else conf
  let conf := if conf.API.Hosts.length = 0 then
    { conf with API := { conf.API with Hosts := [":8600"] } } else conf
  let conf := if conf.Cache.MaxJobs = 0 then
    { conf with Cache := { conf.Cache with MaxJobs := 255 } } else conf
  let conf := if conf.Cache.CleanInterval = "" then
    { conf with Cache := { conf.Cache with CleanInterval := "30m" } } else conf
  let conf := if conf.Cache.PullRecovery = "" then
    { conf with Cache := { conf.Cache with PullRecovery := "300s" } } else conf
  let conf := if conf.Logger.LogLevel = "" then
    { conf with Logger := { conf.Logger with LogLevel := "info" } } else conf
  let conf := if conf.Logger.LogSize = 0 then
    { conf with Logger := { conf.Logger with LogSize := 20971520 } } else conf
  conf

/-! ## Accessors -/

/-- Go `PidFile()`. -/
def PidFile {SC : Type} (g : Globals SC) : String :=
  match g.SystemConfig with
  | some sys => sys.PidFile
  | none => ""

/-- Go `RetryStartup()`. -/
def RetryStartup {SC : Type} (g : Globals SC) : Bool :=
  match g.SystemConfig with
  | some sys => sys.RetryStartup
  | none => false

/-- Go `ClusterArgs()`. The index expression `SystemConfig.API.Hosts[0]` panics
when the slice is empty; a nil result is `Except.ok none`. -/
def ClusterArgs {SC : Type} (g : Globals SC) : Except Panic (Option WorkerArgs) :=
  match g.SystemConfig with
  | some sys =>
    match sys.API.Hosts with
    | host0 :: _ =>
      Except.ok (some {
        Hosts := sys.Cluster.Hosts
        Root := sys.Cluster.Root
        Device := sys.Cluster.Device
        DataCenter := sys.Cluster.DataCenter
        Location := sys.Cluster.Runtime
        OS := sys.Cluster.OS
        Platform := sys.Cluster.Platform
        APIAddr := host0
        Pulse := sys.Cluster.Pulse
        Threshold := sys.Cluster.Threshold })
    | [] => Except.error (Panic.indexOutOfRange 0 0)
  | none => Except.ok none

/-- Go `CacheArgs()`. -/
def CacheArgs {SC : Type} (g : Globals SC) : Option CacheArgsT :=
  match g.SystemConfig with
  | some sys =>
    some {
      MaxJobs := sys.Cache.MaxJobs
      SaveDirectory := sys.Cache.SaveDirectory
      AutoClean := sys.Cache.AutoClean
      CleanInterval := sys.Cache.CleanInterval
      PullRecovery := sys.Cache.PullRecovery }
  | none => none

/-- Go `LoggerArgs()`. -/
def LoggerArgs {SC : Type} (g : Globals SC) : Option LoggerArgsT :=
  match g.SystemConfig with
  | some sys =>
    some {
      FileName := sys.Logger.LogFile
      Level := sys.Logger.LogLevel
      MaxSize := sys.Logger.LogSize }
  | none => none

/-! ## The server-config map and its normalisation -/

/-- Go `models.ServerConfigs`, a `map[string]*ServerConfig`: an association list
read by first match; a nil pointer value is `none`. -/
abbrev ServerConfigs (SC : Type) := List (String × Option SC)

/-- The map entry stored under `key`, `none` when the map has no such key. -/
def ServerConfigs.entry {SC : Type} : ServerConfigs SC → String → Option (Option SC)
  | [], _ => none
  | (k, v) :: rest, key => if k = key then some v else ServerConfigs.entry rest key

/-- Go `m[key]` as an expression: the stored pointer, or nil when `key` is absent. -/
def ServerConfigs.index {SC : Type} (m : ServerConfigs SC) (key : String) : Option SC :=
  match ServerConfigs.entry m key with
  | some v => v
  | none => none

/-- Go `m[key] = value`: overwrite the entry of `key` or create it. -/
def ServerConfigs.assign {SC : Type} : ServerConfigs SC → String → Option SC → ServerConfigs SC
  | [], key, value => [(key, value)]
  | (k, v) :: rest, key, value =>
    if k = key then (key, value) :: rest else (k, v) :: ServerConfigs.assign rest key value

/-- The keys of the map, in storage order. -/
def ServerConfigs.keys {SC : Type} (m : ServerConfigs SC) : List String :=
  m.map Prod.fst

/-- The body of the loop in `SaveServerConfig`, run for the keys of `todo` in
turn: a key that was already produced, or that is not in the map when its turn
comes, is passed over; for any other key the body
`serverConfigs[strings.ToUpper(key)] = value` runs with `value` the entry the
map holds at that moment. Returns the map and the keys produced so far. -/
def rangeVisit {SC : Type} (ToUpper : String → String) :
    List String → ServerConfigs SC → List String → ServerConfigs SC × List String
  | [], m, visited => (m, visited)
  | key :: todo, m, visited =>
    if key ∈ visited then rangeVisit ToUpper todo m visited
    else
      match ServerConfigs.entry m key with
      | none => rangeVisit ToUpper todo m visited
      | some value =>
        rangeVisit ToUpper todo (ServerConfigs.assign m (ToUpper key) value) (key :: visited)

/-- Go `for key, value := range serverConfigs { serverConfigs[strings.ToUpper(key)] = value }`.
The language leaves the visiting order open and lets an entry created during
the loop be produced or skipped. `order` is the choice made by the run: its
keys are visited first, each at most once and only while present in the map;
the keys of the map as decoded that are still unvisited then follow, so that
every entry present at loop entry is produced exactly once. -/
def rangeToUpper {SC : Type} (ToUpper : String → String) (order : List String)
    (serverConfigs : ServerConfigs SC) : ServerConfigs SC :=
  let first := rangeVisit ToUpper order serverConfigs []
  (rangeVisit ToUpper (ServerConfigs.keys serverConfigs) first.1 first.2).1

/-! ## The two state-changing operations -/

/-- Go `SaveServerConfig(data)`. `ToUpper` is `strings.ToUpper`,
`ServerConfigsDeCode` is `models.ServerConfigsDeCode` (given the payload and the
map it is to fill, it returns the filled map or an error message), `order` is
the visiting order of the `range` loop. Returns the error (`none` for nil) and
the package globals after the call. -/
def SaveServerConfig {SC : Type} (ToUpper : String → String)
    (ServerConfigsDeCode : Bytes → ServerConfigs SC → Except String (ServerConfigs SC))
    (order : List String) (data : Bytes) (g : Globals SC) : Option GoError × Globals SC :=
  match g.SystemConfig with
  | some sys =>
    match ServerConfigsDeCode data [] with
    | Except.error err => (some (GoError.External err), g)
    | Except.ok decoded =>
      let serverConfigs := rangeToUpper ToUpper order decoded
      let configKey := ToUpper sys.Cluster.DataCenter
      match ServerConfigs.index serverConfigs configKey with
      | none => (some GoError.ErrConfigServerDataInvalid, g)
      | some serverConfig => (none, { g with ServerConfig := some serverConfig })
  | none => (none, g)

/-- An argument of a `log.Printf` call. -/
inductive LogArg where
  | str (s : String)
  | cluster (c : ClusterConf)
  | api (a : APIConf)
  | cache (c : CacheConf)
  | logger (l : LoggerConf)
deriving DecidableEq, Repr

/-- The calls with an effect outside the package that `New` makes, in order. -/
inductive Effect where
  | FileCopy (src dst : String)
  | OpenFile (file : String)
  | ReadAll (fd : Nat)
  | Close (fd : Nat)
  | Printf (format : String) (arg : LogArg)
deriving DecidableEq, Repr

/-- The collaborators of `New`, over a file-system state `FS`. -/
structure Library (FS : Type) where
  /-- Go `system.FileExist(file)`. -/
  FileExist : FS → String → Bool
  /-- Go `os.LookupEnv(name)`: `none` when the variable is not set. -/
  LookupEnv : String → Option String
  /-- Go `filepath.Base(path)`. -/
  Base : String → String
  /-- Go `system.FileCopy(src, dst)`: the file system after the call and the
  byte count or an error message. -/
  FileCopy : FS → String → String → FS × Except String Int
  /-- Go `os.OpenFile(file, os.O_RDONLY, 0777)`: a descriptor or an error message. -/
  OpenFile : FS → String → Except String Nat
  /-- Go `ioutil.ReadAll(fd)`. -/
  ReadAll : FS → Nat → Except String Bytes
  /-- Go `yaml.Unmarshal(buf, conf)`: `conf` after decoding, or an error message. -/
  Unmarshal : Bytes → Configuration → Except String Configuration
  /-- Go `conf.parseEnv()`, defined in another file of the package: `conf` after
  the environment overrides, or an error message. The method is taken to write
  to its receiver only. -/
  parseEnv : Configuration → Except String Configuration
  /-- Go `models.CLUSTER_CROSS_DC`. -/
  CLUSTER_CROSS_DC : String

/-- Go `strconv.FormatBool`. -/
def FormatBool (b : Bool) : String :=
  if b then "true" else "false"

/-- Go `readConfigurationFile(file)`: the bytes or the error message, and the
calls made. The deferred `fd.Close()` runs on both returns that follow a
successful open. -/
def readConfigurationFile {FS : Type} (lib : Library FS) (fs : FS) (file : String) :
    Except String Bytes × List Effect :=
  match lib.OpenFile fs file with
  | Except.error err => (Except.error err, [Effect.OpenFile file])
  | Except.ok fd =>
    match lib.ReadAll fs fd with
    | Except.error err =>
      (Except.error err, [Effect.OpenFile file, Effect.ReadAll fd, Effect.Close fd])
    | Except.ok buf =>
      (Except.ok buf, [Effect.OpenFile file, Effect.ReadAll fd, Effect.Close fd])

/-- What a call of `New` leaves behind: the returned error (`none` for nil),
the package globals, the file system and the outside calls it made. -/
structure Outcome (FS SC : Type) where
  err : Option GoError
  globals : Globals SC
  fs : FS
  trace : List Effect

/-- The part of `New` from `readConfigurationFile` on, entered with the file
system `fs` and the calls `pre` made so far. -/
def loadFile {FS SC : Type} (lib : Library FS) (file : String) (fs : FS)
    (pre : List Effect) (g : Globals SC) : Outcome FS SC :=
  match readConfigurationFile lib fs file with
  | (Except.error err, t) => ⟨some (GoError.Errorf ("config read " ++ err)), g, fs, pre ++ t⟩
  | (Except.ok buf, t) =>
    match lib.Unmarshal buf Configuration.seed with
    | Except.error _ => ⟨some GoError.ErrConfigFormatInvalid, g, fs, pre ++ t⟩
    | Except.ok conf =>
      match lib.parseEnv conf with
      | Except.error err =>
        ⟨some (GoError.Errorf ("config parse env " ++ err)), g, fs, pre ++ t⟩
      | Except.ok conf =>
        let conf := parseDefaultParmeters lib.CLUSTER_CROSS_DC conf
        ⟨none, { g with SystemConfig := some conf }, fs,
          pre ++ t ++ [
            Effect.Printf "[#etc#] version: %s\n" (LogArg.str conf.Version),
            Effect.Printf "[#etc#] pidfile: %s\n" (LogArg.str conf.PidFile),
            Effect.Printf "[#etc#] retrystartup: %s\n" (LogArg.str (FormatBool conf.RetryStartup)),
            Effect.Printf "[#etc#] cluster: %+v\n" (LogArg.cluster conf.Cluster),
            Effect.Printf "[#etc#] APIlisten: %+v\n" (LogArg.api conf.API),
            Effect.Printf "[#etc#] cache: %+v\n" (LogArg.cache conf.Cache),
            Effect.Printf "[#etc#] logger: %+v\n" (LogArg.logger conf.Logger)]⟩

/-- Go `New(file)`, run on the file system `fs` with the package globals `g`. -/
def New {FS SC : Type} (lib : Library FS) (file : String) (fs : FS) (g : Globals SC) :
    Outcome FS SC :=
  if file ≠ "" then
    if !lib.FileExist fs file then
      let cloudtaskENV := (lib.LookupEnv "CLOUDTASK").getD ""
      if cloudtaskENV = "" then
        ⟨some GoError.ErrConfigFileNotFound, g, fs, []⟩
      else
        let fileName := lib.Base file
        let src := "./etc/" ++ cloudtaskENV ++ "/" ++ fileName
        match lib.FileCopy fs src file with
        | (fs1, Except.error _) =>
          ⟨some GoError.ErrConfigGenerateFailure, g, fs1, [Effect.FileCopy src file]⟩
        | (fs1, Except.ok _) =>
          loadFile lib file fs1
            [Effect.FileCopy src file,
             Effect.Printf "[#etc#] ENV CLOUDTASK: %s\n" (LogArg.str cloudtaskENV)] g
    else loadFile lib file fs [] g
  else loadFile lib file fs [] g

/-! ## Concrete collaborators used to instantiate the theorems -/

/-- Go `strings.ToUpper` on strings of ASCII characters: the letters `a` to `z`
become `A` to `Z`, every other character stays. -/
def asciiToUpper (s : String) : String :=
  String.mk (s.data.map Char.toUpper)

/-- A decoder that rejects the empty payload and decodes every other payload
to the entries of `table`, added to the map it is given. -/
def tableDeCode {SC : Type} (table : ServerConfigs SC) (data : Bytes) (m : ServerConfigs SC) :
    Except String (ServerConfigs SC) :=
  if data.isEmpty then Except.error "unexpected end of JSON input" else Except.ok (m ++ table)

/-- A bootstrapped configuration of datacenter `DC1`. -/
def bootedDC1 : Configuration where
  Version := "v1"
  PidFile := "./agent.pid"
  RetryStartup := true
  Cluster := ⟨"DC1", "zk:2181", "/cloudtask", "", "default", "linux", "amd64", "8s", 1⟩
  API := ⟨[":8600"], false⟩
  Cache := ⟨255, "./cache", true, "30m", "300s"⟩
  Logger := ⟨"./logs/agent.log", "info", 20971520⟩

/-- A small world for `New`: the file system is the list of paths that exist,
every file is empty, an empty document decodes to the seed it is given and any
other document is malformed, and `profile` is the value of `CLOUDTASK`;
`parseEnv` is passed in. -/
def listLibrary (profile : Option String)
    (parseEnv : Configuration → Except String Configuration) : Library (List String) where
  FileExist := fun fs file => decide (file ∈ fs)
  LookupEnv := fun name => if name = "CLOUDTASK" then profile else none
  Base := fun path => path
  FileCopy := fun fs src dst =>
    if src ∈ fs then (dst :: fs, Except.ok 0) else (fs, Except.error "no such file")
  OpenFile := fun fs file => if file ∈ fs then Except.ok 3 else Except.error "no such file"
  ReadAll := fun _ _ => Except.ok []
  Unmarshal := fun buf conf => if buf.isEmpty then Except.ok conf else Except.error "yaml"
  parseEnv := parseEnv
  CLUSTER_CROSS_DC := "cross"

/-- An environment-override step that changes nothing. -/
def parseEnvNone (conf : Configuration) : Except String Configuration :=
  Except.ok conf

/-- Modelled from the spec: `parseEnv`, whose body is in a file of the package
other than `configuration.go`. The spec has this step consult environment
variables to override individual fields of the decoded configuration, through a
field-to-variable mapping it leaves implementation-defined, and fail bootstrap
with a parse error when an override value does not parse; it names no override
of `retrystartup` and has every document that omits that field end with `true`.
`overrides` is the implementation-defined part: the configuration with the
overridden fields, or the parse error. `RetryStartup` stays as decoded. -/
def parseEnvSpec (overrides : Configuration → Except String Configuration)
    (conf : Configuration) : Except String Configuration :=
  match overrides conf with
  | Except.error err => Except.error err
  | Except.ok conf1 => Except.ok { conf1 with RetryStartup := conf.RetryStartup }

/-- A world for `New` with two documents: `agent.yaml`, opened as descriptor 3,
is empty and so omits `retrystartup`; `legacy.yaml`, opened as descriptor 4,
sets `retrystartup: false`. The environment overrides `pidfile`. -/
def twoDocLibrary : Library (List String) where
  FileExist := fun fs file => decide (file ∈ fs)
  LookupEnv := fun _ => none
  Base := fun path => path
  FileCopy := fun fs _ _ => (fs, Except.error "no such file")
  OpenFile := fun fs file =>
    if file ∈ fs then
      if file = "agent.yaml" then Except.ok 3
      else if file = "legacy.yaml" then Except.ok 4
      else Except.error "permission denied"
    else Except.error "no such file"
  ReadAll := fun _ fd => if fd = 3 then Except.ok [] else Except.ok [1]
  Unmarshal := fun buf conf =>
    if buf.isEmpty then Except.ok conf else Except.ok { conf with RetryStartup := false }
  parseEnv := parseEnvSpec (fun conf => Except.ok { conf with PidFile := "/var/run/agent.pid" })
  CLUSTER_CROSS_DC := "cross"

/-! ## Facts about the concrete collaborators -/

theorem Char_toNat_ofNat_small (n : Nat) (h : n < 55296) : (Char.ofNat n).toNat = n := by
  have hv : n.isValidChar := Or.inl h
  simp only [Char.ofNat, hv, ↓reduceDIte, Char.ofNatAux, Char.toNat]
  rfl

theorem Char_toUpper_idem (c : Char) : c.toUpper.toUpper = c.toUpper := by
  have key : ∀ d : Char, d.toUpper =
      if 97 ≤ d.toNat ∧ d.toNat ≤ 122 then Char.ofNat (d.toNat - 32) else d := by
    intro d
    simp [Char.toUpper]
  by_cases h : 97 ≤ c.toNat ∧ c.toNat ≤ 122
  · have hu : c.toUpper = Char.ofNat (c.toNat - 32) := by rw [key, if_pos h]
    have hn : c.toUpper.toNat = c.toNat - 32 := by
      rw [hu]; exact Char_toNat_ofNat_small _ (by omega)
    rw [key c.toUpper, if_neg (by omega)]
  · have hu : c.toUpper = c := by rw [key, if_neg h]
    rw [hu, hu]

theorem asciiToUpper_idem (s : String) : asciiToUpper (asciiToUpper s) = asciiToUpper s := by
  simp only [asciiToUpper, List.map_map]
  congr 1
  apply List.map_congr_left
  intro c _
  exact Char_toUpper_idem c

/-! ## Facts about `parseDefaultParmeters` -/

theorem parseDefaultParmeters_eq (X : String) (c : Configuration) :
    parseDefaultParmeters X c =
      { Version := c.Version
        PidFile := c.PidFile
        RetryStartup := c.RetryStartup
        Cluster := {
          DataCenter := if c.Cluster.DataCenter = "" then X else c.Cluster.DataCenter
          Hosts := c.Cluster.Hosts
          Root := c.Cluster.Root
          Device := c.Cluster.Device
          Runtime := c.Cluster.Runtime
          OS := c.Cluster.OS
          Platform := c.Cluster.Platform
          Pulse := if c.Cluster.Pulse = "" then "8s" else c.Cluster.Pulse
          Threshold := if c.Cluster.Threshold = 0 then 1 else c.Cluster.Threshold }
        API := {
          Hosts := if c.API.Hosts = [] then [":8600"] else c.API.Hosts
          EnableCors := c.API.EnableCors }
        Cache := {
          MaxJobs := if c.Cache.MaxJobs = 0 then 255 else c.Cache.MaxJobs
          SaveDirectory := c.Cache.SaveDirectory
          AutoClean := c.Cache.AutoClean
          CleanInterval := if c.Cache.CleanInterval = "" then "30m" else c.Cache.CleanInterval
          PullRecovery := if c.Cache.PullRecovery = "" then "300s" else c.Cache.PullRecovery }
        Logger := {
          LogFile := c.Logger.LogFile
          LogLevel := if c.Logger.LogLevel = "" then "info" else c.Logger.LogLevel
          LogSize := if c.Logger.LogSize = 0 then 20971520 else c.Logger.LogSize } } := by
  rcases c with ⟨v, p, r, ⟨dc, h, ro, d, ru, os, pl, pu, th⟩, ⟨ah, ec⟩, ⟨mj, sd, ac, ci, pr⟩,
    ⟨lf, ll, ls⟩⟩
  simp only [parseDefaultParmeters, List.length_eq_zero]
  by_cases h1 : dc = "" <;> by_cases h2 : pu = "" <;> by_cases h3 : th = 0 <;>
    by_cases h4 : ah = [] <;> by_cases h5 : mj = 0 <;> by_cases h6 : ci = "" <;>
    by_cases h7 : pr = "" <;> by_cases h8 : ll = "" <;> by_cases h9 : ls = 0 <;>
    simp [h1, h2, h3, h4, h5, h6, h7, h8, h9]

theorem parseDefaultParmeters_hosts (X : String) (c : Configuration) :
    ∃ host0 rest, (parseDefaultParmeters X c).API.Hosts = host0 :: rest ∧
      (c.API.Hosts = [] → host0 = ":8600") ∧ (∀ h t, c.API.Hosts = h :: t → host0 = h) := by
  rw [parseDefaultParmeters_eq]
  cases hh : c.API.Hosts with
  | nil => exact ⟨":8600", [], by simp, fun _ => rfl, by simp⟩
  | cons a l => exact ⟨a, l, by simp, by simp, fun h t e => by simp at e; exact e.1⟩

theorem parseDefaultParmeters_RetryStartup (X : String) (c : Configuration) :
    (parseDefaultParmeters X c).RetryStartup = c.RetryStartup := by
  rw [parseDefaultParmeters_eq]

theorem ServerConfigs.entry_assign {SC : Type} (m : ServerConfigs SC) (k j : String)
    (v : Option SC) :
    ServerConfigs.entry (ServerConfigs.assign m k v) j =
      if k = j then some v else ServerConfigs.entry m j := by
  induction m with
  | nil => simp [ServerConfigs.assign, ServerConfigs.entry]
  | cons p rest ih =>
    obtain ⟨k1, v1⟩ := p
    by_cases h : k1 = k
    · subst h
      by_cases hj : k1 = j <;> simp [ServerConfigs.assign, ServerConfigs.entry, hj]
    · by_cases hj : k1 = j
      · subst hj
        simp [ServerConfigs.assign, ServerConfigs.entry, h, Ne.symm h]
      · simp [ServerConfigs.assign, ServerConfigs.entry, h, hj, ih]

theorem ServerConfigs.mem_keys_of_entry {SC : Type} (m : ServerConfigs SC) (k : String)
    (h : ServerConfigs.entry m k ≠ none) : k ∈ ServerConfigs.keys m := by
  induction m with
  | nil => simp [ServerConfigs.entry] at h
  | cons p rest ih =>
    obtain ⟨k1, v1⟩ := p
    by_cases hk : k1 = k
    · simp [ServerConfigs.keys, hk]
    · simp only [ServerConfigs.entry, hk, ↓reduceIte] at h
      have := ih h
      simp only [ServerConfigs.keys, List.map_cons, List.mem_cons] at this ⊢
      exact Or.inr this

theorem rangeVisit_invariant {SC : Type} (ToUpper : String → String)
    (P : ServerConfigs SC → List String → Prop)
    (hstep : ∀ m visited key value, P m visited → key ∉ visited →
      ServerConfigs.entry m key = some value →
      P (ServerConfigs.assign m (ToUpper key) value) (key :: visited))
    (todo : List String) :
    ∀ (m : ServerConfigs SC) (visited : List String), P m visited →
      P (rangeVisit ToUpper todo m visited).1 (rangeVisit ToUpper todo m visited).2 := by
  induction todo with
  | nil => intro m visited h; simpa [rangeVisit] using h
  | cons key todo ih =>
    intro m visited h
    by_cases hv : key ∈ visited
    · simp only [rangeVisit, hv, ↓reduceIte]
      exact ih m visited h
    · cases he : ServerConfigs.entry m key with
      | none =>
        simp only [rangeVisit, hv, ↓reduceIte, he]
        exact ih m visited h
      | some value =>
        simp only [rangeVisit, hv, ↓reduceIte, he]
        exact ih _ _ (hstep m visited key value h hv he)

theorem rangeVisit_visited_mono {SC : Type} (ToUpper : String → String) (todo : List String)
    (m : ServerConfigs SC) (visited : List String) (k : String) (h : k ∈ visited) :
    k ∈ (rangeVisit ToUpper todo m visited).2 :=
  rangeVisit_invariant ToUpper (fun _ vis => k ∈ vis)
    (fun _ _ _ _ hk _ _ => List.mem_cons_of_mem _ hk) todo m visited h

theorem rangeVisit_keeps_entry {SC : Type} (ToUpper : String → String) (todo : List String)
    (m : ServerConfigs SC) (visited : List String) (k : String)
    (h : ServerConfigs.entry m k ≠ none) :
    ServerConfigs.entry (rangeVisit ToUpper todo m visited).1 k ≠ none := by
  refine rangeVisit_invariant ToUpper (fun m _ => ServerConfigs.entry m k ≠ none) ?_ todo m visited h
  intro m1 _ key value hk _ _
  rw [ServerConfigs.entry_assign]
  by_cases hj : ToUpper key = k
  · simp [hj]
  · simpa [hj] using hk

theorem rangeVisit_covers {SC : Type} (ToUpper : String → String) (todo : List String) :
    ∀ (m : ServerConfigs SC) (visited : List String) (k : String), k ∈ todo →
      ServerConfigs.entry m k ≠ none → k ∈ (rangeVisit ToUpper todo m visited).2 := by
  induction todo with
  | nil => intro m visited k hk; simp at hk
  | cons key todo ih =>
    intro m visited k hk hpres
    by_cases hv : key ∈ visited
    · simp only [rangeVisit, hv, ↓reduceIte]
      rcases List.mem_cons.1 hk with heq | hin
      · subst heq
        exact rangeVisit_visited_mono ToUpper todo m visited k hv
      · exact ih m visited k hin hpres
    · cases he : ServerConfigs.entry m key with
      | none =>
        simp only [rangeVisit, hv, ↓reduceIte, he]
        rcases List.mem_cons.1 hk with heq | hin
        · subst heq
          exact absurd he hpres
        · exact ih m visited k hin hpres
      | some value =>
        simp only [rangeVisit, hv, ↓reduceIte, he]
        rcases List.mem_cons.1 hk with heq | hin
        · subst heq
          exact rangeVisit_visited_mono ToUpper todo _ _ k (List.mem_cons_self _ _)
        · refine ih _ _ k hin ?_
          rw [ServerConfigs.entry_assign]
          by_cases hj : ToUpper key = k
          · simp [hj]
          · simpa [hj] using hpres

/-- Every entry present at loop entry has been produced when the loop ends. -/
theorem rangeToUpper_visits_all {SC : Type} (ToUpper : String → String) (order : List String)
    (m : ServerConfigs SC) (k : String) (h : ServerConfigs.entry m k ≠ none) :
    k ∈ (rangeVisit ToUpper (ServerConfigs.keys m) (rangeVisit ToUpper order m []).1
      (rangeVisit ToUpper order m []).2).2 :=
  rangeVisit_covers ToUpper _ _ _ k (ServerConfigs.mem_keys_of_entry m k h)
    (rangeVisit_keeps_entry ToUpper order m [] k h)

/-- An invariant of the loop body that holds at loop entry holds for the
normalised map and the keys produced. -/
theorem rangeToUpper_invariant {SC : Type} (ToUpper : String → String)
    (P : ServerConfigs SC → List String → Prop)
    (hstep : ∀ m visited key value, P m visited → key ∉ visited →
      ServerConfigs.entry m key = some value →
      P (ServerConfigs.assign m (ToUpper key) value) (key :: visited))
    (order : List String) (m : ServerConfigs SC) (h : P m []) :
    P (rangeToUpper ToUpper order m)
      (rangeVisit ToUpper (ServerConfigs.keys m) (rangeVisit ToUpper order m []).1
        (rangeVisit ToUpper order m []).2).2 := by
  unfold rangeToUpper
  exact rangeVisit_invariant ToUpper P hstep _ _ _
    (rangeVisit_invariant ToUpper P hstep order m [] h)

theorem rangeToUpper_no_entry {SC : Type} (ToUpper : String → String)
    (hidem : ∀ s, ToUpper (ToUpper s) = ToUpper s) (order : List String)
    (m : ServerConfigs SC) (U : String)
    (hno : ∀ key, ToUpper key = ToUpper U → ServerConfigs.index m key = none) :
    ServerConfigs.index (rangeToUpper ToUpper order m) (ToUpper U) = none := by
  have inv := rangeToUpper_invariant ToUpper
    (fun (m : ServerConfigs SC) _ =>
      ∀ key, ToUpper key = ToUpper U → ServerConfigs.index m key = none)
    (by
      intro m1 visited key value hP _ he j hj
      simp only [ServerConfigs.index, ServerConfigs.entry_assign]
      by_cases hkj : ToUpper key = j
      · have hku : ToUpper key = ToUpper U := by rw [← hj, ← hkj, hidem]
        have := hP key hku
        simp only [ServerConfigs.index, he] at this
        simp [hkj, this]
      · have := hP j hj
        simpa [ServerConfigs.index, hkj] using this)
    order m hno
  exact inv (ToUpper U) (hidem U)

theorem rangeToUpper_entry {SC : Type} (ToUpper : String → String)
    (hidem : ∀ s, ToUpper (ToUpper s) = ToUpper s) (order : List String)
    (m : ServerConfigs SC) (U key0 : String) (e : SC)
    (hkey : ToUpper key0 = ToUpper U)
    (hentry : ServerConfigs.index m key0 = some e)
    (hall : ∀ key, ToUpper key = ToUpper U → ServerConfigs.entry m key ≠ none →
      ServerConfigs.index m key = some e) :
    ServerConfigs.index (rangeToUpper ToUpper order m) (ToUpper U) = some e := by
  have hpres : ServerConfigs.entry m key0 ≠ none := by
    intro hn
    simp [ServerConfigs.index, hn] at hentry
  have inv := rangeToUpper_invariant ToUpper
    (fun (m : ServerConfigs SC) (vis : List String) =>
      (∀ key, ToUpper key = ToUpper U → ServerConfigs.entry m key ≠ none →
        ServerConfigs.index m key = some e) ∧
      ((∃ k ∈ vis, ToUpper k = ToUpper U) →
        ServerConfigs.index m (ToUpper U) = some e))
    (by
      intro m1 visited key value hP _ he
      obtain ⟨hA, hB⟩ := hP
      have hval : ToUpper key = ToUpper U → value = some e := by
        intro hku
        have := hA key hku (by simp [he])
        simpa [ServerConfigs.index, he] using this
      refine ⟨?_, ?_⟩
      · intro j hj hjp
        simp only [ServerConfigs.index, ServerConfigs.entry_assign] at hjp ⊢
        by_cases hkj : ToUpper key = j
        · have hku : ToUpper key = ToUpper U := by rw [← hj, ← hkj, hidem]
          simp [hkj, hval hku]
        · simp only [hkj, ↓reduceIte] at hjp ⊢
          exact hA j hj hjp
      · intro hex
        simp only [ServerConfigs.index, ServerConfigs.entry_assign]
        by_cases hku : ToUpper key = ToUpper U
        · simp [hku, hval hku]
        · simp only [hku, ↓reduceIte]
          obtain ⟨k, hk, hkU⟩ := hex
          rcases List.mem_cons.1 hk with heq | hin
          · subst heq; exact absurd hkU hku
          · exact hB ⟨k, hin, hkU⟩)
    order m ⟨hall, by simp⟩
  exact inv.2 ⟨key0, rangeToUpper_visits_all ToUpper order m key0 hpres, hkey⟩


/-! ## Facts about `New` -/

theorem loadFile_ok {FS SC : Type} (lib : Library FS) (file : String) (fs : FS)
    (pre : List Effect) (g : Globals SC) (h : (loadFile lib file fs pre g).err = none) :
    ∃ fd buf conf0 conf1,
      lib.OpenFile fs file = Except.ok fd ∧ lib.ReadAll fs fd = Except.ok buf ∧
      lib.Unmarshal buf Configuration.seed = Except.ok conf0 ∧
      lib.parseEnv conf0 = Except.ok conf1 ∧
      (loadFile lib file fs pre g).globals =
        { g with SystemConfig := some (parseDefaultParmeters lib.CLUSTER_CROSS_DC conf1) } ∧
      (loadFile lib file fs pre g).fs = fs := by
  cases h1 : lib.OpenFile fs file with
  | error e => simp [loadFile, readConfigurationFile, h1] at h
  | ok fd =>
    cases h2 : lib.ReadAll fs fd with
    | error e => simp [loadFile, readConfigurationFile, h1, h2] at h
    | ok buf =>
      cases h3 : lib.Unmarshal buf Configuration.seed with
      | error e => simp [loadFile, readConfigurationFile, h1, h2, h3] at h
      | ok conf0 =>
        cases h4 : lib.parseEnv conf0 with
        | error e => simp [loadFile, readConfigurationFile, h1, h2, h3, h4] at h
        | ok conf1 =>
          exact ⟨fd, buf, conf0, conf1, rfl, h2, h3, h4,
            by simp [loadFile, readConfigurationFile, h1, h2, h3, h4],
            by simp [loadFile, readConfigurationFile, h1, h2, h3, h4]⟩

theorem loadFile_error {FS SC : Type} (lib : Library FS) (file : String) (fs : FS)
    (pre : List Effect) (g : Globals SC) (h : (loadFile lib file fs pre g).err ≠ none) :
    (loadFile lib file fs pre g).globals = g := by
  cases h1 : lib.OpenFile fs file with
  | error e => simp [loadFile, readConfigurationFile, h1]
  | ok fd =>
    cases h2 : lib.ReadAll fs fd with
    | error e => simp [loadFile, readConfigurationFile, h1, h2]
    | ok buf =>
      cases h3 : lib.Unmarshal buf Configuration.seed with
      | error e => simp [loadFile, readConfigurationFile, h1, h2, h3]
      | ok conf0 =>
        cases h4 : lib.parseEnv conf0 with
        | error e => simp [loadFile, readConfigurationFile, h1, h2, h3, h4]
        | ok conf1 => simp [loadFile, readConfigurationFile, h1, h2, h3, h4] at h

/-- Whatever the globals were, `loadFile` returns the same error, makes the
same calls and leaves the same file system; it never touches `ServerConfig`, and
the `SystemConfig` it publishes does not depend on the globals. -/
theorem loadFile_globals {FS SC : Type} (lib : Library FS) (file : String) (fs : FS)
    (pre : List Effect) (g1 g2 : Globals SC) :
    (loadFile lib file fs pre g1).err = (loadFile lib file fs pre g2).err ∧
    (loadFile lib file fs pre g1).fs = (loadFile lib file fs pre g2).fs ∧
    (loadFile lib file fs pre g1).trace = (loadFile lib file fs pre g2).trace ∧
    (loadFile lib file fs pre g1).globals.ServerConfig = g1.ServerConfig ∧
    ((loadFile lib file fs pre g1).err = none →
      (loadFile lib file fs pre g1).globals.SystemConfig =
        (loadFile lib file fs pre g2).globals.SystemConfig) := by
  cases h1 : lib.OpenFile fs file with
  | error e => simp [loadFile, readConfigurationFile, h1]
  | ok fd =>
    cases h2 : lib.ReadAll fs fd with
    | error e => simp [loadFile, readConfigurationFile, h1, h2]
    | ok buf =>
      cases h3 : lib.Unmarshal buf Configuration.seed with
      | error e => simp [loadFile, readConfigurationFile, h1, h2, h3]
      | ok conf0 =>
        cases h4 : lib.parseEnv conf0 with
        | error e => simp [loadFile, readConfigurationFile, h1, h2, h3, h4]
        | ok conf1 => simp [loadFile, readConfigurationFile, h1, h2, h3, h4]

/-- A successful `New` has read a document from `file`, decoded it over the
seed `RetryStartup: true`, applied the environment overrides and published the
defaulted result as `SystemConfig`, leaving `ServerConfig` as it was. -/
theorem New_ok {FS SC : Type} (lib : Library FS) (file : String) (fs : FS) (g : Globals SC)
    (h : (New lib file fs g).err = none) :
    ∃ fs1 fd buf conf0 conf1,
      lib.OpenFile fs1 file = Except.ok fd ∧ lib.ReadAll fs1 fd = Except.ok buf ∧
      lib.Unmarshal buf Configuration.seed = Except.ok conf0 ∧
      lib.parseEnv conf0 = Except.ok conf1 ∧
      (New lib file fs g).globals =
        { g with SystemConfig := some (parseDefaultParmeters lib.CLUSTER_CROSS_DC conf1) } := by
  by_cases hf : file = ""
  · simp only [New, hf, ne_eq, not_true_eq_false, ↓reduceIte] at h ⊢
    obtain ⟨fd, buf, c0, c1, a, b, c, d, e, _⟩ := loadFile_ok lib "" fs [] g h
    exact ⟨fs, fd, buf, c0, c1, a, b, c, d, e⟩
  · cases hex : lib.FileExist fs file with
    | true =>
      simp only [New, ne_eq, hf, not_false_eq_true, hex, Bool.not_true, Bool.false_eq_true,
        ↓reduceIte] at h ⊢
      obtain ⟨fd, buf, c0, c1, a, b, c, d, e, _⟩ := loadFile_ok lib file fs [] g h
      exact ⟨fs, fd, buf, c0, c1, a, b, c, d, e⟩
    | false =>
      by_cases henv : (lib.LookupEnv "CLOUDTASK").getD "" = ""
      · simp [New, hf, hex, henv] at h
      · rcases hc : lib.FileCopy fs ("./etc/" ++ (lib.LookupEnv "CLOUDTASK").getD "" ++ "/" ++
          lib.Base file) file with ⟨fs1, r⟩
        cases r with
        | error e => simp [New, hf, hex, henv, hc] at h
        | ok n =>
          simp only [New, ne_eq, hf, not_false_eq_true, hex, Bool.not_false, henv,
            ↓reduceIte, hc] at h ⊢
          obtain ⟨fd, buf, c0, c1, a, b, c, d, e, _⟩ := loadFile_ok lib file fs1 _ g h
          exact ⟨fs1, fd, buf, c0, c1, a, b, c, d, e⟩

theorem New_error {FS SC : Type} (lib : Library FS) (file : String) (fs : FS) (g : Globals SC)
    (h : (New lib file fs g).err ≠ none) : (New lib file fs g).globals = g := by
  by_cases hf : file = ""
  · simp only [New, hf, ne_eq, not_true_eq_false, ↓reduceIte] at h ⊢
    exact loadFile_error lib "" fs [] g h
  · cases hex : lib.FileExist fs file with
    | true =>
      simp only [New, ne_eq, hf, not_false_eq_true, hex, Bool.not_true, Bool.false_eq_true,
        ↓reduceIte] at h ⊢
      exact loadFile_error lib file fs [] g h
    | false =>
      by_cases henv : (lib.LookupEnv "CLOUDTASK").getD "" = ""
      · simp [New, hf, hex, henv]
      · rcases hc : lib.FileCopy fs ("./etc/" ++ (lib.LookupEnv "CLOUDTASK").getD "" ++ "/" ++
          lib.Base file) file with ⟨fs1, r⟩
        cases r with
        | error e => simp [New, hf, hex, henv, hc]
        | ok n =>
          simp only [New, ne_eq, hf, not_false_eq_true, hex, Bool.not_false, henv,
            ↓reduceIte, hc] at h ⊢
          exact loadFile_error lib file fs1 _ g h


/-- Whatever the globals were, `New` returns the same error, makes the same
calls and leaves the same file system; it never touches `ServerConfig`, and the
`SystemConfig` it publishes does not depend on the globals. -/
theorem New_globals {FS SC : Type} (lib : Library FS) (file : String) (fs : FS)
    (g1 g2 : Globals SC) :
    (New lib file fs g1).err = (New lib file fs g2).err ∧
    (New lib file fs g1).fs = (New lib file fs g2).fs ∧
    (New lib file fs g1).trace = (New lib file fs g2).trace ∧
    (New lib file fs g1).globals.ServerConfig = g1.ServerConfig ∧
    ((New lib file fs g1).err = none →
      (New lib file fs g1).globals.SystemConfig =
        (New lib file fs g2).globals.SystemConfig) := by
  by_cases hf : file = ""
  · simp only [New, hf, ne_eq, not_true_eq_false, ↓reduceIte]
    exact loadFile_globals lib "" fs [] g1 g2
  · cases hex : lib.FileExist fs file with
    | true =>
      simp only [New, ne_eq, hf, not_false_eq_true, hex, Bool.not_true, Bool.false_eq_true,
        ↓reduceIte]
      exact loadFile_globals lib file fs [] g1 g2
    | false =>
      by_cases henv : (lib.LookupEnv "CLOUDTASK").getD "" = ""
      · simp [New, hf, hex, henv]
      · rcases hc : lib.FileCopy fs ("./etc/" ++ (lib.LookupEnv "CLOUDTASK").getD "" ++ "/" ++
          lib.Base file) file with ⟨fs1, r⟩
        cases r with
        | error e => simp [New, hf, hex, henv, hc]
        | ok n =>
          simp only [New, ne_eq, hf, not_false_eq_true, hex, Bool.not_false, henv,
            ↓reduceIte, hc]
          exact loadFile_globals lib file fs1 _ g1 g2

/-- A successful `New` leaves the file system it read the document from, so the
document it decoded is the one readable at `file` in that file system. -/
theorem New_ok_read {FS SC : Type} (lib : Library FS) (file : String) (fs : FS)
    (g : Globals SC) (h : (New lib file fs g).err = none) :
    ∃ fd buf conf0 conf1,
      lib.OpenFile (New lib file fs g).fs file = Except.ok fd ∧
      lib.ReadAll (New lib file fs g).fs fd = Except.ok buf ∧
      lib.Unmarshal buf Configuration.seed = Except.ok conf0 ∧
      lib.parseEnv conf0 = Except.ok conf1 ∧
      (New lib file fs g).globals =
        { g with SystemConfig := some (parseDefaultParmeters lib.CLUSTER_CROSS_DC conf1) } := by
  by_cases hf : file = ""
  · simp only [New, hf, ne_eq, not_true_eq_false, ↓reduceIte] at h ⊢
    obtain ⟨fd, buf, c0, c1, a, b, c, d, e, hfs⟩ := loadFile_ok lib "" fs [] g h
    rw [hfs]
    exact ⟨fd, buf, c0, c1, a, b, c, d, e⟩
  · cases hex : lib.FileExist fs file with
    | true =>
      simp only [New, ne_eq, hf, not_false_eq_true, hex, Bool.not_true, Bool.false_eq_true,
        ↓reduceIte] at h ⊢
      obtain ⟨fd, buf, c0, c1, a, b, c, d, e, hfs⟩ := loadFile_ok lib file fs [] g h
      rw [hfs]
      exact ⟨fd, buf, c0, c1, a, b, c, d, e⟩
    | false =>
      by_cases henv : (lib.LookupEnv "CLOUDTASK").getD "" = ""
      · simp [New, hf, hex, henv] at h
      · rcases hc : lib.FileCopy fs ("./etc/" ++ (lib.LookupEnv "CLOUDTASK").getD "" ++ "/" ++
          lib.Base file) file with ⟨fs1, r⟩
        cases r with
        | error e => simp [New, hf, hex, henv, hc] at h
        | ok n =>
          simp only [New, ne_eq, hf, not_false_eq_true, hex, Bool.not_false, henv,
            ↓reduceIte, hc] at h ⊢
          obtain ⟨fd, buf, c0, c1, a, b, c, d, e, hfs⟩ := loadFile_ok lib file fs1 _ g h
          rw [hfs]
          exact ⟨fd, buf, c0, c1, a, b, c, d, e⟩

theorem parseEnvSpec_RetryStartup (overrides : Configuration → Except String Configuration)
    (conf conf1 : Configuration) (h : parseEnvSpec overrides conf = Except.ok conf1) :
    conf1.RetryStartup = conf.RetryStartup := by
  unfold parseEnvSpec at h
  cases ho : overrides conf with
  | error e => simp [ho] at h
  | ok c =>
    simp only [ho, Except.ok.injEq] at h
    rw [← h]

/-! ## The claims -/

/-- C1. In a bootstrapped state, when the payload decodes to a set in which no
key that equals `cluster.dataCenter` after upper-casing holds a non-nil entry
(there is no such key, or the entry there is nil), `SaveServerConfig` returns
`ErrConfigServerDataInvalid` and leaves both globals, `ServerConfig` included,
exactly as they were, whatever order the loop visits the keys in. -/
theorem SaveServerConfig_missing_datacenter {SC : Type} (ToUpper : String → String)
    (ServerConfigsDeCode : Bytes → ServerConfigs SC → Except String (ServerConfigs SC))
    (order : List String) (data : Bytes) (g : Globals SC) (sys : Configuration)
    (decoded : ServerConfigs SC)
    (hupper : ∀ s, ToUpper (ToUpper s) = ToUpper s)
    (hboot : g.SystemConfig = some sys)
    (hdecode : ServerConfigsDeCode data [] = Except.ok decoded)
    (hnone : ∀ key, ToUpper key = ToUpper sys.Cluster.DataCenter →
      ServerConfigs.index decoded key = none) :
    SaveServerConfig ToUpper ServerConfigsDeCode order data g =
      (some GoError.ErrConfigServerDataInvalid, g) := by
  have h := rangeToUpper_no_entry ToUpper hupper order decoded sys.Cluster.DataCenter hnone
  simp [SaveServerConfig, hboot, hdecode, h]

theorem SaveServerConfig_missing_datacenter_witness :
    (∀ s, asciiToUpper (asciiToUpper s) = asciiToUpper s) ∧
    tableDeCode [("dc2", some "center-b"), ("dc1", none)] [1] [] =
      Except.ok [("dc2", some "center-b"), ("dc1", none)] ∧
    SaveServerConfig asciiToUpper (tableDeCode [("dc2", some "center-b"), ("dc1", none)])
        ["dc1"] [1] ⟨some bootedDC1, some "center-a"⟩ =
      (some GoError.ErrConfigServerDataInvalid, ⟨some bootedDC1, some "center-a"⟩) :=
  ⟨asciiToUpper_idem, rfl,
    SaveServerConfig_missing_datacenter asciiToUpper
      (tableDeCode [("dc2", some "center-b"), ("dc1", none)]) ["dc1"] [1]
      ⟨some bootedDC1, some "center-a"⟩ bootedDC1 [("dc2", some "center-b"), ("dc1", none)]
      asciiToUpper_idem rfl rfl
      (by
        intro key hkey
        by_cases h2 : key = "dc2"
        · subst h2
          exact absurd hkey (by decide)
        · by_cases h1 : "dc1" = key <;>
            simp [ServerConfigs.index, ServerConfigs.entry, Ne.symm h2, h1])⟩

/-- C2, as the claim states it, fails. With the decoded set holding `center-a`
under `dc1` and `center-b` under `DC1` and the datacenter `DC1`, the entry under
the key `DC1` is `center-b`, yet `SaveServerConfig` stores `center-a`, in either
visiting order. With `center-a` under `dc1` and `center-c` under `Dc1` the
entry stored depends on the visiting order. -/
theorem SaveServerConfig_case_collision :
    ServerConfigs.index [("dc1", some "center-a"), ("DC1", some "center-b")] "DC1" =
      some "center-b" ∧
    asciiToUpper "DC1" = asciiToUpper bootedDC1.Cluster.DataCenter ∧
    SaveServerConfig asciiToUpper
        (tableDeCode [("dc1", some "center-a"), ("DC1", some "center-b")])
        ["dc1", "DC1"] [1] ⟨some bootedDC1, none⟩ =
      (none, ⟨some bootedDC1, some "center-a"⟩) ∧
    SaveServerConfig asciiToUpper
        (tableDeCode [("dc1", some "center-a"), ("DC1", some "center-b")])
        ["DC1", "dc1"] [1] ⟨some bootedDC1, none⟩ =
      (none, ⟨some bootedDC1, some "center-a"⟩) ∧
    SaveServerConfig asciiToUpper
        (tableDeCode [("dc1", some "center-a"), ("Dc1", some "center-c")])
        ["dc1", "Dc1"] [1] ⟨some bootedDC1, none⟩ =
      (none, ⟨some bootedDC1, some "center-c"⟩) ∧
    SaveServerConfig asciiToUpper
        (tableDeCode [("dc1", some "center-a"), ("Dc1", some "center-c")])
        ["Dc1", "dc1"] [1] ⟨some bootedDC1, none⟩ =
      (none, ⟨some bootedDC1, some "center-a"⟩) := by
  refine ⟨?_, ?_, ?_, ?_, ?_, ?_⟩ <;> decide

/-- C2, amended. In a bootstrapped state, when the payload decodes to a set
with a non-nil entry `e` under a key equal to `cluster.dataCenter` up to letter
case, and every key of the set equal to it up to letter case holds `e`,
`SaveServerConfig` returns no error and afterwards `ServerConfig` is `e`,
whatever order the loop visits the keys in. -/
theorem SaveServerConfig_case_insensitive {SC : Type} (ToUpper : String → String)
    (ServerConfigsDeCode : Bytes → ServerConfigs SC → Except String (ServerConfigs SC))
    (order : List String) (data : Bytes) (g : Globals SC) (sys : Configuration)
    (decoded : ServerConfigs SC) (key0 : String) (e : SC)
    (hupper : ∀ s, ToUpper (ToUpper s) = ToUpper s)
    (hboot : g.SystemConfig = some sys)
    (hdecode : ServerConfigsDeCode data [] = Except.ok decoded)
    (hkey : ToUpper key0 = ToUpper sys.Cluster.DataCenter)
    (hentry : ServerConfigs.index decoded key0 = some e)
    (hsame : ∀ key, ToUpper key = ToUpper sys.Cluster.DataCenter →
      ServerConfigs.entry decoded key ≠ none → ServerConfigs.index decoded key = some e) :
    SaveServerConfig ToUpper ServerConfigsDeCode order data g =
      (none, { g with ServerConfig := some e }) := by
  have h := rangeToUpper_entry ToUpper hupper order decoded sys.Cluster.DataCenter key0 e
    hkey hentry hsame
  simp [SaveServerConfig, hboot, hdecode, h]

theorem SaveServerConfig_case_insensitive_witness :
    asciiToUpper "dc1" = asciiToUpper bootedDC1.Cluster.DataCenter ∧
    ServerConfigs.index [("dc2", some "center-b"), ("dc1", some "center-a")] "dc1" =
      some "center-a" ∧
    SaveServerConfig asciiToUpper
        (tableDeCode [("dc2", some "center-b"), ("dc1", some "center-a")])
        ["dc2"] [1] ⟨some bootedDC1, none⟩ =
      (none, ⟨some bootedDC1, some "center-a"⟩) :=
  ⟨by decide, by decide,
    SaveServerConfig_case_insensitive asciiToUpper
      (tableDeCode [("dc2", some "center-b"), ("dc1", some "center-a")]) ["dc2"] [1]
      ⟨some bootedDC1, none⟩ bootedDC1 [("dc2", some "center-b"), ("dc1", some "center-a")]
      "dc1" "center-a" asciiToUpper_idem rfl rfl (by decide) (by decide)
      (by
        intro key hkey _
        by_cases h2 : key = "dc2"
        · subst h2
          exact absurd hkey (by decide)
        · by_cases h1 : "dc1" = key <;>
            simp_all [ServerConfigs.index, ServerConfigs.entry, Ne.symm h2])⟩

/-- C3. `parseDefaultParmeters` sets each of the nine defaulted fields to its
default exactly when the field was zero or empty before the call, and leaves
every other field, and every defaulted field that was not zero, unchanged; a
configuration whose cache section is empty ends with `maxJobs = 255`,
`cleanInterval = "30m"` and `pullRecovery = "300s"`. -/
theorem parseDefaultParmeters_defaults (CLUSTER_CROSS_DC : String) (c : Configuration) :
    parseDefaultParmeters CLUSTER_CROSS_DC c =
      { Version := c.Version
        PidFile := c.PidFile
        RetryStartup := c.RetryStartup
        Cluster := {
          DataCenter := if c.Cluster.DataCenter = "" then CLUSTER_CROSS_DC
            else c.Cluster.DataCenter
          Hosts := c.Cluster.Hosts
          Root := c.Cluster.Root
          Device := c.Cluster.Device
          Runtime := c.Cluster.Runtime
          OS := c.Cluster.OS
          Platform := c.Cluster.Platform
          Pulse := if c.Cluster.Pulse = "" then "8s" else c.Cluster.Pulse
          Threshold := if c.Cluster.Threshold = 0 then 1 else c.Cluster.Threshold }
        API := {
          Hosts := if c.API.Hosts = [] then [":8600"] else c.API.Hosts
          EnableCors := c.API.EnableCors }
        Cache := {
          MaxJobs := if c.Cache.MaxJobs = 0 then 255 else c.Cache.MaxJobs
          SaveDirectory := c.Cache.SaveDirectory
          AutoClean := c.Cache.AutoClean
          CleanInterval := if c.Cache.CleanInterval = "" then "30m" else c.Cache.CleanInterval
          PullRecovery := if c.Cache.PullRecovery = "" then "300s" else c.Cache.PullRecovery }
        Logger := {
          LogFile := c.Logger.LogFile
          LogLevel := if c.Logger.LogLevel = "" then "info" else c.Logger.LogLevel
          LogSize := if c.Logger.LogSize = 0 then 20971520 else c.Logger.LogSize } } ∧
    (parseDefaultParmeters CLUSTER_CROSS_DC
        { c with Cache := Configuration.zero.Cache }).Cache =
      ⟨255, "", false, "30m", "300s"⟩ := by
  exact ⟨parseDefaultParmeters_eq CLUSTER_CROSS_DC c, by
    rw [parseDefaultParmeters_eq]; simp [Configuration.zero]⟩

/-- C4. For every configuration `parseDefaultParmeters` produces, `api.hosts` is
not empty and `ClusterArgs` returns, without panicking, a non-nil value whose
`APIAddr` is the first element of `api.hosts` (`":8600"` when no host was
configured) and whose other fields copy `cluster.hosts`, `root`, `device`,
`dataCenter`, `runtime` (as `Location`), `os`, `platform`, `pulse` and
`threshold`; the same holds of the globals after every successful `New`. -/
theorem ClusterArgs_after_defaults {SC : Type} (CLUSTER_CROSS_DC : String)
    (conf : Configuration) (serverConfig : Option SC) :
    (∃ host0 rest,
      (parseDefaultParmeters CLUSTER_CROSS_DC conf).API.Hosts = host0 :: rest ∧
      (conf.API.Hosts = [] → host0 = ":8600") ∧
      (∀ h t, conf.API.Hosts = h :: t → host0 = h) ∧
      ClusterArgs (⟨some (parseDefaultParmeters CLUSTER_CROSS_DC conf), serverConfig⟩ :
          Globals SC) =
        Except.ok (some {
          Hosts := (parseDefaultParmeters CLUSTER_CROSS_DC conf).Cluster.Hosts
          Root := (parseDefaultParmeters CLUSTER_CROSS_DC conf).Cluster.Root
          Device := (parseDefaultParmeters CLUSTER_CROSS_DC conf).Cluster.Device
          DataCenter := (parseDefaultParmeters CLUSTER_CROSS_DC conf).Cluster.DataCenter
          Location := (parseDefaultParmeters CLUSTER_CROSS_DC conf).Cluster.Runtime
          OS := (parseDefaultParmeters CLUSTER_CROSS_DC conf).Cluster.OS
          Platform := (parseDefaultParmeters CLUSTER_CROSS_DC conf).Cluster.Platform
          APIAddr := host0
          Pulse := (parseDefaultParmeters CLUSTER_CROSS_DC conf).Cluster.Pulse
          Threshold := (parseDefaultParmeters CLUSTER_CROSS_DC conf).Cluster.Threshold })) ∧
    (∀ (FS : Type) (lib : Library FS) (file : String) (fs : FS) (g : Globals SC),
      (New lib file fs g).err = none →
      ∃ sys host0 rest,
        (New lib file fs g).globals.SystemConfig = some sys ∧
        sys.API.Hosts = host0 :: rest ∧
        ClusterArgs (New lib file fs g).globals =
          Except.ok (some {
            Hosts := sys.Cluster.Hosts
            Root := sys.Cluster.Root
            Device := sys.Cluster.Device
            DataCenter := sys.Cluster.DataCenter
            Location := sys.Cluster.Runtime
            OS := sys.Cluster.OS
            Platform := sys.Cluster.Platform
            APIAddr := host0
            Pulse := sys.Cluster.Pulse
            Threshold := sys.Cluster.Threshold })) := by
  refine ⟨?_, ?_⟩
  · obtain ⟨host0, rest, hh, h1, h2⟩ := parseDefaultParmeters_hosts CLUSTER_CROSS_DC conf
    exact ⟨host0, rest, hh, h1, h2, by simp [ClusterArgs, hh]⟩
  · intro FS lib file fs g hok
    obtain ⟨fs1, fd, buf, c0, c1, _, _, _, _, hg⟩ := New_ok lib file fs g hok
    obtain ⟨host0, rest, hh, _, _⟩ := parseDefaultParmeters_hosts lib.CLUSTER_CROSS_DC c1
    exact ⟨_, host0, rest, by rw [hg], hh, by simp [hg, ClusterArgs, hh]⟩

theorem ClusterArgs_after_defaults_witness :
    (New (listLibrary none parseEnvNone) "agent.yaml" ["agent.yaml"]
      (⟨none, none⟩ : Globals String)).err = none ∧
    ∃ sys host0 rest,
      (New (listLibrary none parseEnvNone) "agent.yaml" ["agent.yaml"]
        (⟨none, none⟩ : Globals String)).globals.SystemConfig = some sys ∧
      sys.API.Hosts = host0 :: rest ∧
      ClusterArgs (New (listLibrary none parseEnvNone) "agent.yaml" ["agent.yaml"]
        (⟨none, none⟩ : Globals String)).globals =
        Except.ok (some {
          Hosts := sys.Cluster.Hosts
          Root := sys.Cluster.Root
          Device := sys.Cluster.Device
          DataCenter := sys.Cluster.DataCenter
          Location := sys.Cluster.Runtime
          OS := sys.Cluster.OS
          Platform := sys.Cluster.Platform
          APIAddr := host0
          Pulse := sys.Cluster.Pulse
          Threshold := sys.Cluster.Threshold }) :=
  ⟨by decide,
    (ClusterArgs_after_defaults "cross" Configuration.seed (none : Option String)).2
      (List String) (listLibrary none parseEnvNone) "agent.yaml" ["agent.yaml"] ⟨none, none⟩
      (by decide)⟩


/-- C5. Every call of `New` that returns an error leaves the package globals
exactly as they were: `SystemConfig` is what it was before the call, so a
process with `SystemConfig` nil still has it nil. -/
theorem New_failure_publishes_nothing {FS SC : Type} (lib : Library FS) (file : String)
    (fs : FS) (g : Globals SC) (err : GoError) (herr : (New lib file fs g).err = some err) :
    (New lib file fs g).globals = g ∧
    (New lib file fs g).globals.SystemConfig = g.SystemConfig ∧
    (g.SystemConfig = none → (New lib file fs g).globals.SystemConfig = none) := by
  have h : (New lib file fs g).globals = g := New_error lib file fs g (by simp [herr])
  exact ⟨h, by rw [h], fun hn => by rw [h, hn]⟩

theorem New_failure_publishes_nothing_witness :
    (New (listLibrary none parseEnvNone) "agent.yaml" ["other.yaml"]
      (⟨none, none⟩ : Globals String)).err = some GoError.ErrConfigFileNotFound ∧
    (New (listLibrary none parseEnvNone) "agent.yaml" ["other.yaml"]
      (⟨none, none⟩ : Globals String)).globals.SystemConfig = none :=
  ⟨by decide,
    (New_failure_publishes_nothing (listLibrary none parseEnvNone) "agent.yaml" ["other.yaml"]
      (⟨none, none⟩ : Globals String) GoError.ErrConfigFileNotFound (by decide)).2.2 rfl⟩

/-- C6, as the claim states it, fails before bootstrap: with `SystemConfig` nil
and a payload the decoder rejects, `SaveServerConfig` returns nil, not the
decoder's error. -/
theorem SaveServerConfig_unbooted_reject :
    tableDeCode ([] : ServerConfigs String) [] [] =
      Except.error "unexpected end of JSON input" ∧
    SaveServerConfig asciiToUpper (tableDeCode ([] : ServerConfigs String)) [] []
      ⟨none, some "center-a"⟩ = (none, ⟨none, some "center-a"⟩) :=
  ⟨rfl, by decide⟩

/-- C6, amended. For every payload the decoder rejects: in a bootstrapped state
`SaveServerConfig` returns the decoder's error, and before any bootstrap it
returns nil; in both states the globals, `ServerConfig` included, are left as
they were. -/
theorem SaveServerConfig_decode_error {SC : Type} (ToUpper : String → String)
    (ServerConfigsDeCode : Bytes → ServerConfigs SC → Except String (ServerConfigs SC))
    (order : List String) (data : Bytes) (g : Globals SC) (msg : String)
    (hreject : ServerConfigsDeCode data [] = Except.error msg) :
    (g.SystemConfig ≠ none →
      SaveServerConfig ToUpper ServerConfigsDeCode order data g =
        (some (GoError.External msg), g)) ∧
    (g.SystemConfig = none →
      SaveServerConfig ToUpper ServerConfigsDeCode order data g = (none, g)) := by
  cases hs : g.SystemConfig with
  | none => simp [SaveServerConfig, hs]
  | some sys => simp [SaveServerConfig, hs, hreject]

theorem SaveServerConfig_decode_error_witness :
    tableDeCode ([] : ServerConfigs String) [] [] =
      Except.error "unexpected end of JSON input" ∧
    SaveServerConfig asciiToUpper (tableDeCode ([] : ServerConfigs String)) [] []
      ⟨some bootedDC1, some "center-a"⟩ =
      (some (GoError.External "unexpected end of JSON input"),
        ⟨some bootedDC1, some "center-a"⟩) :=
  ⟨rfl,
    (SaveServerConfig_decode_error asciiToUpper (tableDeCode ([] : ServerConfigs String)) [] []
      ⟨some bootedDC1, some "center-a"⟩ "unexpected end of JSON input" rfl).1 (by simp)⟩

/-- C7, as the claim states it, fails: `New` succeeds on a state whose
`ServerConfig` is `center-a` and afterwards `ServerConfig` is still `center-a`,
not nil, so that two prior states with different `ServerConfig` end in different
states. -/
theorem New_keeps_ServerConfig :
    (New (listLibrary none parseEnvNone) "agent.yaml" ["agent.yaml"]
      (⟨some bootedDC1, some "center-a"⟩ : Globals String)).err = none ∧
    (New (listLibrary none parseEnvNone) "agent.yaml" ["agent.yaml"]
      (⟨some bootedDC1, some "center-a"⟩ : Globals String)).globals.ServerConfig =
      some "center-a" ∧
    (New (listLibrary none parseEnvNone) "agent.yaml" ["agent.yaml"]
      (⟨none, none⟩ : Globals String)).globals.ServerConfig = none ∧
    (New (listLibrary none parseEnvNone) "agent.yaml" ["agent.yaml"]
      (⟨some bootedDC1, some "center-a"⟩ : Globals String)).globals ≠
    (New (listLibrary none parseEnvNone) "agent.yaml" ["agent.yaml"]
      (⟨none, none⟩ : Globals String)).globals := by
  refine ⟨?_, ?_, ?_, ?_⟩ <;> decide

/-- C7, amended. For every two prior states of the globals and the same
collaborators, file system and path, `New` returns the same error, and a
successful `New` publishes the same `SystemConfig`, a non-nil value in which
nothing of the prior `SystemConfig` survives; `New` leaves `ServerConfig` as it
found it. -/
theorem New_replaces_SystemConfig {FS SC : Type} (lib : Library FS) (file : String) (fs : FS)
    (g1 g2 : Globals SC) :
    (New lib file fs g1).err = (New lib file fs g2).err ∧
    ((New lib file fs g1).err = none →
      (New lib file fs g1).globals.SystemConfig ≠ none ∧
      (New lib file fs g1).globals.SystemConfig = (New lib file fs g2).globals.SystemConfig) ∧
    (New lib file fs g1).globals.ServerConfig = g1.ServerConfig ∧
    (New lib file fs g2).globals.ServerConfig = g2.ServerConfig := by
  obtain ⟨he, _, _, hs1, hsys⟩ := New_globals lib file fs g1 g2
  obtain ⟨_, _, _, hs2, _⟩ := New_globals lib file fs g2 g1
  refine ⟨he, fun hok => ⟨?_, hsys hok⟩, hs1, hs2⟩
  obtain ⟨_, _, _, _, _, _, _, _, _, hg⟩ := New_ok lib file fs g1 hok
  simp [hg]

theorem New_replaces_SystemConfig_witness :
    (New (listLibrary none parseEnvNone) "agent.yaml" ["agent.yaml"]
      (⟨some bootedDC1, some "center-a"⟩ : Globals String)).err = none ∧
    (New (listLibrary none parseEnvNone) "agent.yaml" ["agent.yaml"]
      (⟨some bootedDC1, some "center-a"⟩ : Globals String)).globals.SystemConfig =
    (New (listLibrary none parseEnvNone) "agent.yaml" ["agent.yaml"]
      (⟨none, none⟩ : Globals String)).globals.SystemConfig :=
  ⟨by decide,
    ((New_replaces_SystemConfig (listLibrary none parseEnvNone) "agent.yaml" ["agent.yaml"]
      (⟨some bootedDC1, some "center-a"⟩ : Globals String) ⟨none, none⟩).2.1 (by decide)).2⟩

/-- C8. While `SystemConfig` is nil every accessor returns its empty result:
`PidFile` the empty string, `RetryStartup` false, and `ClusterArgs`, `CacheArgs`
and `LoggerArgs` nil, `ClusterArgs` without panicking. -/
theorem accessors_before_bootstrap {SC : Type} (g : Globals SC) (hnil : g.SystemConfig = none) :
    PidFile g = "" ∧ RetryStartup g = false ∧ ClusterArgs g = Except.ok none ∧
    CacheArgs g = none ∧ LoggerArgs g = none := by
  simp [PidFile, RetryStartup, ClusterArgs, CacheArgs, LoggerArgs, hnil]

theorem accessors_before_bootstrap_witness :
    PidFile (⟨none, some "center-a"⟩ : Globals String) = "" ∧
    RetryStartup (⟨none, some "center-a"⟩ : Globals String) = false ∧
    ClusterArgs (⟨none, some "center-a"⟩ : Globals String) = Except.ok none ∧
    CacheArgs (⟨none, some "center-a"⟩ : Globals String) = none ∧
    LoggerArgs (⟨none, some "center-a"⟩ : Globals String) = none :=
  accessors_before_bootstrap ⟨none, some "center-a"⟩ rfl

/-- C9. With the environment-override step as the spec describes it
(`parseEnvSpec`): `New` seeds the pre-decode configuration with
`RetryStartup = true` and `parseDefaultParmeters` never changes `RetryStartup`;
so when the document this call reads at `file` omits `retrystartup`, that is,
decoding it over the seed leaves the seed's value, `RetryStartup` returns true
after the successful `New`. -/
theorem New_retrystartup_default {FS SC : Type} (lib : Library FS)
    (overrides : Configuration → Except String Configuration) (file : String) (fs : FS)
    (g : Globals SC)
    (hparse : lib.parseEnv = parseEnvSpec overrides)
    (hok : (New lib file fs g).err = none)
    (homit : ∀ fd buf conf, lib.OpenFile (New lib file fs g).fs file = Except.ok fd →
      lib.ReadAll (New lib file fs g).fs fd = Except.ok buf →
      lib.Unmarshal buf Configuration.seed = Except.ok conf →
      conf.RetryStartup = Configuration.seed.RetryStartup) :
    Configuration.seed.RetryStartup = true ∧
    (∀ X conf, (parseDefaultParmeters X conf).RetryStartup = conf.RetryStartup) ∧
    RetryStartup (New lib file fs g).globals = true := by
  refine ⟨rfl, parseDefaultParmeters_RetryStartup, ?_⟩
  obtain ⟨fd, buf, c0, c1, ho, hr, hu, hp, hg⟩ := New_ok_read lib file fs g hok
  have h0 : c0.RetryStartup = true := homit fd buf c0 ho hr hu
  rw [hparse] at hp
  have h1 : c1.RetryStartup = true := by
    rw [parseEnvSpec_RetryStartup overrides c0 c1 hp, h0]
  simp [hg, RetryStartup, parseDefaultParmeters_RetryStartup, h1]

theorem New_retrystartup_default_witness :
    (New twoDocLibrary "agent.yaml" ["agent.yaml", "legacy.yaml"]
      (⟨none, none⟩ : Globals String)).err = none ∧
    PidFile (New twoDocLibrary "agent.yaml" ["agent.yaml", "legacy.yaml"]
      (⟨none, none⟩ : Globals String)).globals = "/var/run/agent.pid" ∧
    RetryStartup (New twoDocLibrary "legacy.yaml" ["agent.yaml", "legacy.yaml"]
      (⟨none, none⟩ : Globals String)).globals = false ∧
    RetryStartup (New twoDocLibrary "agent.yaml" ["agent.yaml", "legacy.yaml"]
      (⟨none, none⟩ : Globals String)).globals = true :=
  ⟨by decide, by decide, by decide,
    (New_retrystartup_default twoDocLibrary
      (fun conf => Except.ok { conf with PidFile := "/var/run/agent.pid" })
      "agent.yaml" ["agent.yaml", "legacy.yaml"] (⟨none, none⟩ : Globals String) rfl
      (by decide)
      (by
        intro fd buf conf ho hr hu
        have hfs : (New twoDocLibrary "agent.yaml" ["agent.yaml", "legacy.yaml"]
            (⟨none, none⟩ : Globals String)).fs = ["agent.yaml", "legacy.yaml"] := by decide
        rw [hfs] at ho hr
        simp only [twoDocLibrary, List.mem_cons, true_or, ↓reduceIte, Except.ok.injEq] at ho
        subst ho
        simp only [twoDocLibrary, ↓reduceIte, Except.ok.injEq] at hr
        subst hr
        simp only [twoDocLibrary, List.isEmpty_nil, ↓reduceIte, Except.ok.injEq] at hu
        rw [← hu])).2.2⟩

/-- C10. For a non-empty path that does not exist: when `CLOUDTASK` is unset or
empty, `New` returns `ErrConfigFileNotFound` having made no outside call (no
copy, no open, no read) and changed nothing; when it is set to a non-empty
profile and the template copy fails, `New` returns `ErrConfigGenerateFailure`
after that one copy attempt. -/
theorem New_missing_file {FS SC : Type} (lib : Library FS) (file : String) (fs : FS)
    (g : Globals SC) (hfile : file ≠ "") (hmissing : lib.FileExist fs file = false) :
    ((lib.LookupEnv "CLOUDTASK" = none ∨ lib.LookupEnv "CLOUDTASK" = some "") →
      (New lib file fs g).err = some GoError.ErrConfigFileNotFound ∧
      (New lib file fs g).trace = [] ∧
      (New lib file fs g).globals = g) ∧
    (∀ profile msg, lib.LookupEnv "CLOUDTASK" = some profile → profile ≠ "" →
      (lib.FileCopy fs ("./etc/" ++ profile ++ "/" ++ lib.Base file) file).2 =
        Except.error msg →
      (New lib file fs g).err = some GoError.ErrConfigGenerateFailure ∧
      (New lib file fs g).trace =
        [Effect.FileCopy ("./etc/" ++ profile ++ "/" ++ lib.Base file) file] ∧
      (New lib file fs g).globals = g) := by
  refine ⟨?_, ?_⟩
  · intro henv
    have hv : (lib.LookupEnv "CLOUDTASK").getD "" = "" := by
      rcases henv with h | h <;> simp [h]
    simp [New, hfile, hmissing, hv]
  · intro profile msg henv hne hcopy
    have hv : (lib.LookupEnv "CLOUDTASK").getD "" = profile := by simp [henv]
    rcases hc : lib.FileCopy fs ("./etc/" ++ profile ++ "/" ++ lib.Base file) file with ⟨fs1, r⟩
    rw [hc] at hcopy
    simp only at hcopy
    subst hcopy
    simp [New, hfile, hmissing, hv, hne, hc]

theorem New_missing_file_witness :
    (New (listLibrary none parseEnvNone) "agent.yaml" []
      (⟨none, none⟩ : Globals String)).err = some GoError.ErrConfigFileNotFound ∧
    (New (listLibrary none parseEnvNone) "agent.yaml" []
      (⟨none, none⟩ : Globals String)).trace = [] ∧
    (New (listLibrary (some "dev") parseEnvNone) "agent.yaml" []
      (⟨none, none⟩ : Globals String)).err = some GoError.ErrConfigGenerateFailure ∧
    (New (listLibrary (some "dev") parseEnvNone) "agent.yaml" []
      (⟨none, none⟩ : Globals String)).trace =
      [Effect.FileCopy "./etc/dev/agent.yaml" "agent.yaml"] :=
  have h1 := (New_missing_file (listLibrary none parseEnvNone) "agent.yaml" []
    (⟨none, none⟩ : Globals String) (by decide) rfl).1 (Or.inl rfl)
  have h2 := (New_missing_file (listLibrary (some "dev") parseEnvNone) "agent.yaml" []
    (⟨none, none⟩ : Globals String) (by decide) rfl).2 "dev" "no such file" rfl (by decide) rfl
  ⟨h1.1, h1.2.1, h2.1, h2.2.1⟩


end Etc
